import Mathlib

/-!
Shallow embedding of `src/manage_repos.py`: a GitHub repository
provisioning script.  Pure helpers (base64, padding, UTF-8 encoding)
are modelled as executable Lean functions; the network and the local
filesystem are modelled by an explicit environment, and each Python
function returns the list of remote calls it performed together with an
`Except` value modelling Python exceptions.
-/

/-- Python exceptions that the script can raise.  `requestException`
models `requests.exceptions.RequestException` (including `HTTPError`
raised by `raise_for_status`); the others model `FileNotFoundError`,
`ValueError` and the `nacl` key-decoding errors. -/
inductive PyExn : Type
  | requestException (code : Nat)
  | fileNotFound (msg : String)
  | valueError (msg : String)
  | naclError (msg : String)
  deriving DecidableEq, Repr

def PyExn.isRequestException : PyExn → Bool
  | .requestException _ => true
  | _ => false

/-- One remote HTTP call made by the script, with the request data that
identifies it (repository name, user, file path/content, secret name…). -/
inductive RemoteCall : Type
  | createRepo (name : String)
  | addCollaborator (name user : String)
  | uploadFile (name path content message branch : String)
  | getPublicKey (name : String)
  | putSecret (name secretName encryptedValue keyId : String)
  deriving DecidableEq, Repr

/-- One entry of `repos.json`: the fields the script reads.
`pipelineType` is an `Option` because the script uses
`repo.get("pipeline-type")`. -/
structure RepoSpec where
  repoName : String
  repoUsers : List String
  pipelineType : Option String
  status : String
  deriving DecidableEq, Repr

/-- The external world: local files (`fs`), the outcome of each remote
call (`http c = none` means a 2xx success, `some code` means
`raise_for_status` raises with that status code), the public key data
returned by the secrets public-key endpoint, and the `GH_TOKEN`
environment value. -/
structure Env where
  fs : String → Option String
  http : RemoteCall → Option Nat
  publicKey : String
  keyId : String
  ghToken : String

/- ### Base64 (model of Python `base64.b64encode` / `b64decode`) -/

def b64chars : List Char :=
  "ABCDEFGHIJKLMNOPQRSTUVWXYZabcdefghijklmnopqrstuvwxyz0123456789+/".toList

def sextetChar (n : Nat) : Char := b64chars.getD n 'A'

def sextetVal (c : Char) : Option Nat :=
  b64chars.indexOf? c

/-- Model of `base64.b64encode` on a list of byte values. -/
def b64encodeBytes : List Nat → List Char
  | [] => []
  | [a] => [sextetChar (a / 4), sextetChar (a % 4 * 16), '=', '=']
  | [a, b] => [sextetChar (a / 4), sextetChar (a % 4 * 16 + b / 16),
               sextetChar (b % 16 * 4), '=']
  | a :: b :: c :: rest =>
      sextetChar (a / 4) :: sextetChar (a % 4 * 16 + b / 16) ::
      sextetChar (b % 16 * 4 + c / 64) :: sextetChar (c % 64) ::
      b64encodeBytes rest

/-- Decode one base64 group of four characters into one, two or three
bytes, depending on the `=` padding. -/
def decodeGroup (a b c d : Char) : Option (List Nat) :=
  match sextetVal a, sextetVal b with
  | some va, some vb =>
    if c = '=' then
      if d = '=' then some [va * 4 + vb / 16] else none
    else
      match sextetVal c with
      | some vc =>
        if d = '=' then some [va * 4 + vb / 16, vb % 16 * 16 + vc / 4]
        else
          match sextetVal d with
          | some vd =>
              some [va * 4 + vb / 16, vb % 16 * 16 + vc / 4, vc % 4 * 64 + vd]
          | none => none
      | none => none
  | _, _ => none

/-- Model of `base64.b64decode`: fails (`none`) when the input length is
not a multiple of 4 or a character is not in the base64 alphabet. -/
def b64decodeChars : List Char → Option (List Nat)
  | [] => some []
  | a :: b :: c :: d :: rest =>
      match decodeGroup a b c d, b64decodeChars rest with
      | some g, some r => some (g ++ r)
      | _, _ => none
  | _ => none

/- ### UTF-8 (model of Python `str.encode("utf-8")`) -/

def utf8EncodeChar (c : Char) : List Nat :=
  if c.toNat < 0x80 then [c.toNat]
  else if c.toNat < 0x800 then [0xC0 + c.toNat / 64, 0x80 + c.toNat % 64]
  else if c.toNat < 0x10000 then
    [0xE0 + c.toNat / 4096, 0x80 + c.toNat / 64 % 64, 0x80 + c.toNat % 64]
  else
    [0xF0 + c.toNat / 0x40000, 0x80 + c.toNat / 4096 % 64,
     0x80 + c.toNat / 64 % 64, 0x80 + c.toNat % 64]

def utf8EncodeList : List Char → List Nat
  | [] => []
  | c :: cs => utf8EncodeChar c ++ utf8EncodeList cs

/-- Model of `s.encode("utf-8")`. -/
def utf8Encode (s : String) : List Nat := utf8EncodeList s.data

/- ### The Secret Encryptor (`encrypt`, lines 98-105) -/

/-- Abstract model of libsodium sealed boxes (`nacl.public.SealedBox`):
`seal pk m` encrypts message bytes `m` to public-key bytes `pk`;
`unseal sk c` decrypts with the private key bytes `sk`.  The library is
not part of this repository, so it is kept as a parameter. -/
structure SealedBoxScheme where
  boxSeal : List Nat → List Nat → List Nat
  boxUnseal : List Nat → List Nat → Option (List Nat)

/-- Iteration bound for the padding `while` loop: each pass appends one
character, so at most three passes are needed to reach a multiple of 4;
`fuel` counts the remaining passes. -/
def padB64Loop : Nat → String → String
  | 0, s => s
  | fuel + 1, s => if s.length % 4 = 0 then s else padB64Loop fuel (s ++ "=")

/-- The `while len(public_key) % 4 != 0: public_key += '='` loop
(lines 100-101), run with the three passes that always suffice; the
theorem `padB64_while_eq` below shows this satisfies the `while` loop
equation. -/
def padB64 (s : String) : String := padB64Loop 3 s

/-- Model of `PublicKey(key, encoder=Base64Encoder())`: base64-decode the
key and check it is exactly 32 bytes, else raise a nacl error. -/
def decodeKey (s : String) : Except PyExn (List Nat) :=
  match b64decodeChars s.data with
  | none => .error (.naclError "base64 decoding of the public key failed")
  | some bytes =>
      if bytes.length = 32 then .ok bytes
      else .error (.naclError "the public key must be 32 bytes long")

/-- `encrypt(public_key, secret_value)` (lines 98-105): pad the key to a
multiple of 4, decode it, seal the UTF-8 bytes of the secret, and
base64-encode the ciphertext. -/
def encrypt (S : SealedBoxScheme) (public_key secret_value : String) :
    Except PyExn String :=
  match decodeKey (padB64 public_key) with
  | .error e => .error e
  | .ok pkBytes =>
      .ok (String.mk (b64encodeBytes (S.boxSeal pkBytes (utf8Encode secret_value))))

/- ### Repository Provisioning Client (lines 26-96) -/

/-- `create_repo(repo_name)` (lines 26-35): POST to the org repos
endpoint, `raise_for_status`. -/
def create_repo (env : Env) (repo_name : String) :
    List RemoteCall × Except PyExn Unit :=
  let c := RemoteCall.createRepo repo_name
  match env.http c with
  | none => ([c], .ok ())
  | some code => ([c], .error (.requestException code))

/-- `add_collaborator(repo_name, user)` (lines 37-45): PUT to the
collaborators endpoint, `raise_for_status`. -/
def add_collaborator (env : Env) (repo_name user : String) :
    List RemoteCall × Except PyExn Unit :=
  let c := RemoteCall.addCollaborator repo_name user
  match env.http c with
  | none => ([c], .ok ())
  | some code => ([c], .error (.requestException code))

/-- The `for user in repo["repo-users"]` loop of `main` (lines 115-116). -/
def addCollaborators (env : Env) (repo_name : String) :
    List String → List RemoteCall × Except PyExn Unit
  | [] => ([], .ok ())
  | u :: rest =>
      match add_collaborator env repo_name u with
      | (cs, .error e) => (cs, .error e)
      | (cs, .ok ()) =>
          let (cs2, r2) := addCollaborators env repo_name rest
          (cs ++ cs2, r2)

/-- `read_pipeline_file(pipeline_type)` (lines 47-54): read
`<pipeline_type>.yml` from the working directory, or raise
`FileNotFoundError`. -/
def read_pipeline_file (env : Env) (pipeline_type : String) :
    Except PyExn String :=
  match env.fs (pipeline_type ++ ".yml") with
  | some content => .ok content
  | none =>
      .error (.fileNotFound
        ("The file for pipeline type " ++ pipeline_type ++ " does not exist."))

/-- `create_pipeline(repo_name, pipeline_type)` (lines 56-74): raise
`ValueError` when the pipeline type is `None`, read the template, then
PUT the base64-encoded content to
`.github/workflows/<pipeline_type>.yml` on branch `main`. -/
def create_pipeline (env : Env) (repo_name : String)
    (pipeline_type : Option String) : List RemoteCall × Except PyExn Unit :=
  match pipeline_type with
  | none => ([], .error (.valueError "Pipeline type is not defined."))
  | some pt =>
      match read_pipeline_file env pt with
      | .error e => ([], .error e)
      | .ok content =>
          let encoded_content := String.mk (b64encodeBytes (utf8Encode content))
          let c := RemoteCall.uploadFile repo_name
            (".github/workflows/" ++ pt ++ ".yml") encoded_content
            ("Add " ++ pt ++ " pipeline") "main"
          match env.http c with
          | none => ([c], .ok ())
          | some code => ([c], .error (.requestException code))

/-- `get_public_key(repo_name)` (lines 76-80): GET the actions secrets
public key, returning its `key` and `key_id` fields. -/
def get_public_key (env : Env) (repo_name : String) :
    List RemoteCall × Except PyExn (String × String) :=
  let c := RemoteCall.getPublicKey repo_name
  match env.http c with
  | none => ([c], .ok (env.publicKey, env.keyId))
  | some code => ([c], .error (.requestException code))

/-- The `for secret_name, secret_value in secrets.items()` loop of
`set_repo_secrets` (lines 87-96). -/
def setSecretsLoop (env : Env) (S : SealedBoxScheme)
    (repo_name public_key key_id : String) :
    List (String × String) → List RemoteCall × Except PyExn Unit
  | [] => ([], .ok ())
  | (secret_name, secret_value) :: rest =>
      match encrypt S public_key secret_value with
      | .error e => ([], .error e)
      | .ok encrypted_value =>
          let c := RemoteCall.putSecret repo_name secret_name
            encrypted_value key_id
          match env.http c with
          | some code => ([c], .error (.requestException code))
          | none =>
              let (cs2, r2) :=
                setSecretsLoop env S repo_name public_key key_id rest
              (c :: cs2, r2)

/-- `set_repo_secrets(repo_name, secrets)` (lines 82-96): fetch the
public key, then encrypt and PUT each secret in order. -/
def set_repo_secrets (env : Env) (S : SealedBoxScheme) (repo_name : String)
    (secrets : List (String × String)) : List RemoteCall × Except PyExn Unit :=
  match get_public_key env repo_name with
  | (cs, .error e) => (cs, .error e)
  | (cs, .ok (public_key, key_id)) =>
      let (cs2, r2) := setSecretsLoop env S repo_name public_key key_id secrets
      (cs ++ cs2, r2)

/- ### Desired-State Processor (`main`, lines 107-136) -/

/-- The `secrets` dict built in `main` (lines 119-128), in insertion
order: the static example secret and the provisioning token. -/
def defaultSecrets (env : Env) : List (String × String) :=
  [("SECRET_KEY", "example_secret_value"), ("GH_TOKEN", env.ghToken)]

/-- The body of the `try:` block of `main` (lines 114-129): create the
repository, add each collaborator, create the pipeline, set the
secrets. -/
def tryBody (env : Env) (S : SealedBoxScheme) (repo : RepoSpec) :
    List RemoteCall × Except PyExn Unit :=
  match create_repo env repo.repoName with
  | (c1, .error e) => (c1, .error e)
  | (c1, .ok ()) =>
      match addCollaborators env repo.repoName repo.repoUsers with
      | (c2, .error e) => (c1 ++ c2, .error e)
      | (c2, .ok ()) =>
          match create_pipeline env repo.repoName repo.pipelineType with
          | (c3, .error e) => (c1 ++ c2 ++ c3, .error e)
          | (c3, .ok ()) =>
              let (c4, r4) :=
                set_repo_secrets env S repo.repoName (defaultSecrets env)
              (c1 ++ c2 ++ c3 ++ c4, r4)

/-- One iteration of the `for repo in repos_data` loop (lines 111-133):
skip entries whose status is not `need-to-create`; run the `try:` body;
on success set the status to `created`; the `except` clause catches
only `requests.exceptions.RequestException`, every other exception
propagates (an `.error` result). -/
def processRepo (env : Env) (S : SealedBoxScheme) (repo : RepoSpec) :
    List RemoteCall × Except PyExn RepoSpec :=
  if repo.status = "need-to-create" then
    match tryBody env S repo with
    | (cs, .ok ()) => (cs, .ok { repo with status := "created" })
    | (cs, .error (.requestException _)) => (cs, .ok repo)
    | (cs, .error e) => (cs, .error e)
  else ([], .ok repo)

/-- The whole `for` loop of `main`: process each entry in order; an
uncaught exception aborts the remaining entries. -/
def mainLoop (env : Env) (S : SealedBoxScheme) :
    List RepoSpec → List RemoteCall × Except PyExn (List RepoSpec)
  | [] => ([], .ok [])
  | repo :: rest =>
      match processRepo env S repo with
      | (cs, .error e) => (cs, .error e)
      | (cs, .ok repo') =>
          match mainLoop env S rest with
          | (cs2, .error e) => (cs ++ cs2, .error e)
          | (cs2, .ok rest') => (cs ++ cs2, .ok (repo' :: rest'))

/-- Outcome of one run of `main`: the remote calls performed, the
uncaught exception if the run died, and the content written back to
`repos.json` (`none` when the run died before the final write). -/
structure RunResult where
  calls : List RemoteCall
  exitExn : Option PyExn
  persisted : Option (List RepoSpec)
  deriving DecidableEq, Repr

namespace ManageRepos

/-- `main()` (lines 107-136): run the loop over the loaded list and, if
no exception escaped, overwrite `repos.json` with the full list. -/
def main (env : Env) (S : SealedBoxScheme) (repos_data : List RepoSpec) :
    RunResult :=
  match mainLoop env S repos_data with
  | (cs, .ok repos) => ⟨cs, none, some repos⟩
  | (cs, .error e) => ⟨cs, some e, none⟩

end ManageRepos

/- ### Verification helpers and concrete fixtures -/

/-- Total partial-inverse of `utf8EncodeList` (garbage on invalid
input); used to show that UTF-8 encoding loses no information. -/
def utf8DecodeList : List Nat → List Nat
  | [] => []
  | a :: rest =>
      if a < 0x80 then a :: utf8DecodeList rest
      else if a < 0xE0 then
        ((a - 0xC0) * 64 + (rest.getD 0 0 - 0x80)) ::
          utf8DecodeList (rest.drop 1)
      else if a < 0xF0 then
        ((a - 0xE0) * 4096 + (rest.getD 0 0 - 0x80) * 64 +
          (rest.getD 1 0 - 0x80)) :: utf8DecodeList (rest.drop 2)
      else
        ((a - 0xF0) * 0x40000 + (rest.getD 0 0 - 0x80) * 4096 +
          (rest.getD 1 0 - 0x80) * 64 + (rest.getD 2 0 - 0x80)) ::
          utf8DecodeList (rest.drop 3)
termination_by l => l.length
decreasing_by
  all_goals simp only [List.length_drop, List.length_cons]
  all_goals omega

/-- A trivial sealed-box instance (identity), used to instantiate the
abstract scheme on concrete runs. -/
def idScheme : SealedBoxScheme := ⟨fun _ m => m, fun _ c => some c⟩

/-- Base64 encoding of a 32-zero-byte public key, a well-formed key for
concrete runs. -/
def pkString : String := String.mk (b64encodeBytes (List.replicate 32 0))

/-- Environment for the all-success scenario of the spec: `deploy.yml`
exists with content `name: CI` and every remote call succeeds. -/
def c3Env : Env :=
  { fs := fun p => if p = "deploy.yml" then some "name: CI" else none
    http := fun _ => none
    publicKey := pkString
    keyId := "key-id-1"
    ghToken := "tok-123" }

def c3Spec : RepoSpec := ⟨"svc-a", ["alice"], some "deploy", "need-to-create"⟩

/-- Environment with no local files and every remote call succeeding. -/
def cexEnv : Env :=
  { fs := fun _ => none
    http := fun _ => none
    publicKey := pkString
    keyId := "kid"
    ghToken := "tok" }

/-- A pending entry with no pipeline type: its provisioning raises
`ValueError`, which the `except` clause does not catch. -/
def cexR1 : RepoSpec := ⟨"repo-one", [], none, "need-to-create"⟩

def cexR2 : RepoSpec := ⟨"repo-two", [], some "deploy", "need-to-create"⟩

/-- Environment where creating `fail-repo` returns HTTP 500 and
everything else succeeds; `build.yml` exists locally. -/
def amEnv : Env :=
  { fs := fun p => if p = "build.yml" then some "x: 1" else none
    http := fun c => if c = RemoteCall.createRepo "fail-repo" then some 500
                     else none
    publicKey := pkString
    keyId := "kid"
    ghToken := "tok" }

def amR : RepoSpec := ⟨"fail-repo", [], some "build", "need-to-create"⟩

def amRest : RepoSpec := ⟨"ok-repo", [], some "build", "need-to-create"⟩

/-- Environment where only `build.yml` exists locally and every remote
call succeeds; used to hit `FileNotFoundError` on a second entry. -/
def c10Env : Env :=
  { fs := fun p => if p = "build.yml" then some "x: 1" else none
    http := fun _ => none
    publicKey := pkString
    keyId := "kid"
    ghToken := "tok" }

def c10good : RepoSpec := ⟨"good", [], some "build", "need-to-create"⟩

def c10bad : RepoSpec := ⟨"bad", [], some "missing", "need-to-create"⟩

/-- Environment where creating `svc-a` returns HTTP 422 (name taken) and
everything else succeeds. -/
def e422Env : Env :=
  { fs := fun p => if p = "deploy.yml" then some "name: CI" else none
    http := fun c => if c = RemoteCall.createRepo "svc-a" then some 422
                     else none
    publicKey := pkString
    keyId := "key-id-1"
    ghToken := "tok-123" }

def createdSpec : RepoSpec := ⟨"svc-b", ["bob"], some "deploy", "created"⟩

instance {e a : Type} [DecidableEq e] [DecidableEq a] :
    DecidableEq (Except e a) := fun x y =>
  match x, y with
  | .ok v, .ok w =>
      if h : v = w then isTrue (by rw [h]) else isFalse (by simp [h])
  | .error v, .error w =>
      if h : v = w then isTrue (by rw [h]) else isFalse (by simp [h])
  | .ok _, .error _ => isFalse (fun hc => Except.noConfusion hc)
  | .error _, .ok _ => isFalse (fun hc => Except.noConfusion hc)

/- ### Additional fixtures for claim statements -/

/-- The remote-call trace of the all-success single-entry scenario. -/
def c3Calls : List RemoteCall :=
  [RemoteCall.createRepo "svc-a",
   RemoteCall.addCollaborator "svc-a" "alice",
   RemoteCall.uploadFile "svc-a" ".github/workflows/deploy.yml"
     "bmFtZTogQ0k=" "Add deploy pipeline" "main",
   RemoteCall.getPublicKey "svc-a",
   RemoteCall.putSecret "svc-a" "SECRET_KEY"
     "ZXhhbXBsZV9zZWNyZXRfdmFsdWU=" "key-id-1",
   RemoteCall.putSecret "svc-a" "GH_TOKEN" "dG9rLTEyMw==" "key-id-1"]

/-- `c3Spec` after successful provisioning. -/
def c3After : RepoSpec := ⟨"svc-a", ["alice"], some "deploy", "created"⟩

/- ### Helper lemmas: base64 -/

theorem sextetVal_sextetChar : ∀ n, n < 64 → sextetVal (sextetChar n) = some n := by
  decide

theorem sextetChar_ne_pad : ∀ n, n < 64 → sextetChar n ≠ '=' := by
  decide

theorem decodeGroup_encode3 (a b c : Nat) (ha : a < 256) (hb : b < 256)
    (hc : c < 256) :
    decodeGroup (sextetChar (a / 4)) (sextetChar (a % 4 * 16 + b / 16))
      (sextetChar (b % 16 * 4 + c / 64)) (sextetChar (c % 64)) =
      some [a, b, c] := by
  have h1 := sextetVal_sextetChar (a / 4) (by omega)
  have h2 := sextetVal_sextetChar (a % 4 * 16 + b / 16) (by omega)
  have h3 := sextetVal_sextetChar (b % 16 * 4 + c / 64) (by omega)
  have h4 := sextetVal_sextetChar (c % 64) (by omega)
  have n3 := sextetChar_ne_pad (b % 16 * 4 + c / 64) (by omega)
  have n4 := sextetChar_ne_pad (c % 64) (by omega)
  simp only [decodeGroup, h1, h2, h3, h4, if_neg n3, if_neg n4]
  congr 1
  have e1 : a / 4 * 4 + (a % 4 * 16 + b / 16) / 16 = a := by omega
  have e2 : (a % 4 * 16 + b / 16) % 16 * 16 + (b % 16 * 4 + c / 64) / 4 = b := by
    omega
  have e3 : (b % 16 * 4 + c / 64) % 4 * 64 + c % 64 = c := by omega
  rw [e1, e2, e3]

theorem decodeGroup_encode1 (a : Nat) (ha : a < 256) :
    decodeGroup (sextetChar (a / 4)) (sextetChar (a % 4 * 16)) '=' '=' =
      some [a] := by
  have h1 := sextetVal_sextetChar (a / 4) (by omega)
  have h2 := sextetVal_sextetChar (a % 4 * 16) (by omega)
  simp only [decodeGroup, h1, h2, ite_true]
  congr 1
  have e1 : a / 4 * 4 + a % 4 * 16 / 16 = a := by omega
  rw [e1]

theorem decodeGroup_encode2 (a b : Nat) (ha : a < 256) (hb : b < 256) :
    decodeGroup (sextetChar (a / 4)) (sextetChar (a % 4 * 16 + b / 16))
      (sextetChar (b % 16 * 4)) '=' = some [a, b] := by
  have h1 := sextetVal_sextetChar (a / 4) (by omega)
  have h2 := sextetVal_sextetChar (a % 4 * 16 + b / 16) (by omega)
  have h3 := sextetVal_sextetChar (b % 16 * 4) (by omega)
  have n3 := sextetChar_ne_pad (b % 16 * 4) (by omega)
  simp only [decodeGroup, h1, h2, h3, if_neg n3, ite_true]
  congr 1
  have e1 : a / 4 * 4 + (a % 4 * 16 + b / 16) / 16 = a := by omega
  have e2 : (a % 4 * 16 + b / 16) % 16 * 16 + b % 16 * 4 / 4 = b := by omega
  rw [e1, e2]

/-- Base64 decoding inverts base64 encoding on byte values. -/
theorem b64_decode_encode (l : List Nat) (h : ∀ x ∈ l, x < 256) :
    b64decodeChars (b64encodeBytes l) = some l := by
  induction l using b64encodeBytes.induct with
  | case1 => rfl
  | case2 a =>
      have ha : a < 256 := h a (by simp)
      simp only [b64encodeBytes, b64decodeChars, decodeGroup_encode1 a ha,
        List.append_nil]
  | case3 a b =>
      have ha : a < 256 := h a (by simp)
      have hb : b < 256 := h b (by simp)
      simp only [b64encodeBytes, b64decodeChars, decodeGroup_encode2 a b ha hb,
        List.append_nil]
  | case4 a b c rest ih =>
      have ha : a < 256 := h a (by simp)
      have hb : b < 256 := h b (by simp)
      have hc : c < 256 := h c (by simp)
      have hrest : ∀ x ∈ rest, x < 256 := by
        intro x hx; exact h x (by simp [hx])
      simp only [b64encodeBytes, b64decodeChars,
        decodeGroup_encode3 a b c ha hb hc, ih hrest]
      rfl

/- ### Helper lemmas: UTF-8 -/

theorem charToNat_lt_codepoint (c : Char) : c.toNat < 1114112 := by
  rcases c.valid with h | h
  · exact Nat.lt_trans h (by norm_num)
  · exact h.2

theorem utf8DecodeList_encodeChar (c : Char) (r : List Nat) :
    utf8DecodeList (utf8EncodeChar c ++ r) = c.toNat :: utf8DecodeList r := by
  have hv := charToNat_lt_codepoint c
  unfold utf8EncodeChar
  split_ifs with h1 h2 h3
  · simp only [List.cons_append, List.nil_append]
    rw [utf8DecodeList, if_pos h1]
  · simp only [List.cons_append, List.nil_append]
    rw [utf8DecodeList, if_neg (by omega), if_pos (by omega)]
    simp only [List.getD_cons_zero, List.getD_cons_succ, List.drop_succ_cons,
      List.drop_zero]
    have e : (192 + c.toNat / 64 - 192) * 64 + (128 + c.toNat % 64 - 128) =
        c.toNat := by omega
    rw [e]
  · simp only [List.cons_append, List.nil_append]
    rw [utf8DecodeList, if_neg (by omega), if_neg (by omega), if_pos (by omega)]
    simp only [List.getD_cons_zero, List.getD_cons_succ, List.drop_succ_cons,
      List.drop_zero]
    have e : (224 + c.toNat / 4096 - 224) * 4096 +
        (128 + c.toNat / 64 % 64 - 128) * 64 + (128 + c.toNat % 64 - 128) =
        c.toNat := by omega
    rw [e]
  · simp only [List.cons_append, List.nil_append]
    rw [utf8DecodeList, if_neg (by omega), if_neg (by omega), if_neg (by omega)]
    simp only [List.getD_cons_zero, List.getD_cons_succ, List.drop_succ_cons,
      List.drop_zero]
    have e : (240 + c.toNat / 262144 - 240) * 262144 +
        (128 + c.toNat / 4096 % 64 - 128) * 4096 +
        (128 + c.toNat / 64 % 64 - 128) * 64 + (128 + c.toNat % 64 - 128) =
        c.toNat := by omega
    rw [e]

theorem utf8DecodeList_encodeList (l : List Char) :
    utf8DecodeList (utf8EncodeList l) = l.map Char.toNat := by
  induction l with
  | nil =>
      show utf8DecodeList [] = []
      rw [utf8DecodeList]
  | cons c cs ih =>
      simp only [utf8EncodeList, utf8DecodeList_encodeChar, ih, List.map_cons]

/-- UTF-8 encoding is injective: the encoded bytes determine the
string. -/
theorem utf8Encode_injective (a b : String) (h : utf8Encode a = utf8Encode b) :
    a = b := by
  have h2 : utf8DecodeList (utf8EncodeList a.data) =
      utf8DecodeList (utf8EncodeList b.data) := by
    unfold utf8Encode at h
    rw [h]
  rw [utf8DecodeList_encodeList, utf8DecodeList_encodeList] at h2
  have hinj : Function.Injective Char.toNat := fun _ _ hc =>
    Char.ext (UInt32.ext hc)
  have h4 : a.data = b.data := List.map_injective_iff.mpr hinj h2
  cases a
  cases b
  exact congrArg String.mk h4

/- ### Helper lemmas: padB64 -/

theorem padB64Loop_data (fuel : Nat) (s : String)
    (h : (4 - s.length % 4) % 4 ≤ fuel) :
    (padB64Loop fuel s).data =
      s.data ++ List.replicate ((4 - s.length % 4) % 4) '=' := by
  induction fuel generalizing s with
  | zero =>
      have h0 : s.length % 4 = 0 := by omega
      rw [padB64Loop, h0]
      simp
  | succ fuel ih =>
      by_cases h0 : s.length % 4 = 0
      · rw [padB64Loop, if_pos h0, h0]
        simp
      · rw [padB64Loop, if_neg h0]
        have hd : (s ++ "=").data = s.data ++ ['='] := String.data_append s "="
        have hl : (s ++ "=").length = s.length + 1 := by
          show (s ++ "=").data.length = s.data.length + 1
          rw [hd]
          simp
        rw [ih (s ++ "=") (by rw [hl]; omega)]
        rw [hd, hl, List.append_assoc]
        congr 1
        have : (4 - (s.length + 1) % 4) % 4 + 1 = (4 - s.length % 4) % 4 := by
          omega
        rw [← this]
        simp [List.replicate_succ]

theorem padB64_data (s : String) :
    (padB64 s).data = s.data ++ List.replicate ((4 - s.length % 4) % 4) '=' :=
  padB64Loop_data 3 s (by omega)

/-- `padB64` satisfies the recurrence of the `while` loop it models. -/
theorem padB64_while_eq (s : String) :
    padB64 s = if s.length % 4 = 0 then s else padB64 (s ++ "=") := by
  by_cases h : s.length % 4 = 0
  · rw [if_pos h]
    show padB64Loop 3 s = s
    rw [padB64Loop, if_pos h]
  · rw [if_neg h]
    apply String.ext
    rw [padB64_data, padB64_data]
    have hd : (s ++ "=").data = s.data ++ ['='] := String.data_append s "="
    have hl : (s ++ "=").length = s.length + 1 := by
      show (s ++ "=").data.length = s.data.length + 1
      rw [hd]
      simp
    rw [hd, hl, List.append_assoc]
    congr 1
    have : (4 - (s.length + 1) % 4) % 4 + 1 = (4 - s.length % 4) % 4 := by
      omega
    rw [← this]
    simp [List.replicate_succ]

theorem padB64_length_mod (s : String) : (padB64 s).length % 4 = 0 := by
  show (padB64 s).data.length % 4 = 0
  rw [padB64_data]
  simp only [List.length_append, List.length_replicate]
  have : s.length = s.data.length := rfl
  omega

theorem padB64_eq_self (s : String) (h : s.length % 4 = 0) : padB64 s = s := by
  show padB64Loop 3 s = s
  rw [padB64Loop, if_pos h]

theorem padB64_idem (s : String) : padB64 (padB64 s) = padB64 s :=
  padB64_eq_self _ (padB64_length_mod s)

theorem encrypt_padB64 (S : SealedBoxScheme) (pk sv : String) :
    encrypt S pk sv = encrypt S (padB64 pk) sv := by
  unfold encrypt
  rw [padB64_idem]

/- ### Helper lemmas: the Desired-State Processor -/

theorem processRepo_skip (env : Env) (S : SealedBoxScheme) (r : RepoSpec)
    (h : r.status ≠ "need-to-create") :
    processRepo env S r = ([], .ok r) := by
  unfold processRepo
  rw [if_neg h]

theorem processRepo_ok_cases (env : Env) (S : SealedBoxScheme) (r : RepoSpec)
    (cs : List RemoteCall) (r' : RepoSpec)
    (h : processRepo env S r = (cs, .ok r')) :
    r' = r ∨ (r.status = "need-to-create" ∧ (tryBody env S r).2 = .ok () ∧
      r' = { r with status := "created" }) := by
  unfold processRepo at h
  by_cases hs : r.status = "need-to-create"
  · rw [if_pos hs] at h
    rcases ht : tryBody env S r with ⟨tc, tr⟩
    rw [ht] at h
    match tr with
    | .ok () =>
        right
        refine ⟨hs, rfl, ?_⟩
        injection h with h1 h2
        injection h2 with h3
        exact h3.symm
    | .error (.requestException code) =>
        left
        injection h with h1 h2
        injection h2 with h3
        exact h3.symm
    | .error (.fileNotFound m) => simp at h
    | .error (.valueError m) => simp at h
    | .error (.naclError m) => simp at h
  · rw [if_neg hs] at h
    injection h with h1 h2
    injection h2 with h3
    exact Or.inl h3.symm

theorem processRepo_error_not_request (env : Env) (S : SealedBoxScheme)
    (r : RepoSpec) (cs : List RemoteCall) (e : PyExn)
    (h : processRepo env S r = (cs, .error e)) :
    ∀ code, e ≠ .requestException code := by
  unfold processRepo at h
  by_cases hs : r.status = "need-to-create"
  · rw [if_pos hs] at h
    rcases ht : tryBody env S r with ⟨tc, tr⟩
    rw [ht] at h
    match tr with
    | .ok () => simp at h
    | .error (.requestException code) => simp at h
    | .error (.fileNotFound m) =>
        injection h with h1 h2
        injection h2 with h3
        intro code hc
        rw [← h3] at hc
        exact PyExn.noConfusion hc
    | .error (.valueError m) =>
        injection h with h1 h2
        injection h2 with h3
        intro code hc
        rw [← h3] at hc
        exact PyExn.noConfusion hc
    | .error (.naclError m) =>
        injection h with h1 h2
        injection h2 with h3
        intro code hc
        rw [← h3] at hc
        exact PyExn.noConfusion hc
  · rw [if_neg hs] at h
    simp at h

/-- On a completed run, each output entry is its input entry, possibly
advanced from `need-to-create` to `created` after a fully successful
`try:` body. -/
theorem mainLoop_ok_forall₂ (env : Env) (S : SealedBoxScheme)
    (repos : List RepoSpec) (cs : List RemoteCall) (repos' : List RepoSpec)
    (h : mainLoop env S repos = (cs, .ok repos')) :
    List.Forall₂ (fun r r' => r' = r ∨
      (r.status = "need-to-create" ∧ (tryBody env S r).2 = .ok () ∧
        r' = { r with status := "created" })) repos repos' := by
  induction repos generalizing cs repos' with
  | nil =>
      unfold mainLoop at h
      injection h with h1 h2
      injection h2 with h3
      rw [← h3]
      exact List.Forall₂.nil
  | cons r rest ih =>
      unfold mainLoop at h
      rcases hp : processRepo env S r with ⟨cs1, res1⟩
      rw [hp] at h
      match res1 with
      | .error e => simp at h
      | .ok r'' =>
          rcases hm : mainLoop env S rest with ⟨cs2, res2⟩
          rw [hm] at h
          match res2 with
          | .error e => simp at h
          | .ok rest'' =>
              injection h with h1 h2
              injection h2 with h3
              rw [← h3]
              exact List.Forall₂.cons
                (processRepo_ok_cases env S r cs1 r'' hp)
                (ih cs2 rest'' (by rw [hm]))

/-- An exception that escapes the per-repository handler is never a
`RequestException`. -/
theorem mainLoop_error_not_request (env : Env) (S : SealedBoxScheme)
    (repos : List RepoSpec) (cs : List RemoteCall) (e : PyExn)
    (h : mainLoop env S repos = (cs, .error e)) :
    ∀ code, e ≠ .requestException code := by
  induction repos generalizing cs with
  | nil =>
      unfold mainLoop at h
      simp at h
  | cons r rest ih =>
      unfold mainLoop at h
      rcases hp : processRepo env S r with ⟨cs1, res1⟩
      rw [hp] at h
      match res1 with
      | .error e1 =>
          injection h with h1 h2
          injection h2 with h3
          rw [← h3]
          exact processRepo_error_not_request env S r cs1 e1 hp
      | .ok r'' =>
          rcases hm : mainLoop env S rest with ⟨cs2, res2⟩
          rw [hm] at h
          match res2 with
          | .error e2 =>
              injection h with h1 h2
              injection h2 with h3
              rw [h3] at hm
              exact ih cs2 hm
          | .ok rest'' => simp at h

/-- A list with no pending entry is passed through untouched with no
remote call. -/
theorem mainLoop_all_skip (env : Env) (S : SealedBoxScheme)
    (repos : List RepoSpec) (h : ∀ r ∈ repos, r.status ≠ "need-to-create") :
    mainLoop env S repos = ([], .ok repos) := by
  induction repos with
  | nil => rfl
  | cons r rest ih =>
      unfold mainLoop
      rw [processRepo_skip env S r (h r (by simp))]
      rw [ih (fun x hx => h x (by simp [hx]))]
      rfl

/- ### Claims -/

/-- Claim C1, counterexample: with two pending entries where the first
has no pipeline type, the `ValueError` raised for the first entry is NOT
caught by the per-repository handler: the run dies, nothing is
persisted, and the second entry is never processed (no create call for
`repo-two`), contradicting the claim that any exception is caught at
per-repository granularity and processing continues. -/
theorem C1_counterexample :
    ManageRepos.main cexEnv idScheme [cexR1, cexR2] =
      ⟨[RemoteCall.createRepo "repo-one"],
       some (.valueError "Pipeline type is not defined."), none⟩ ∧
    RemoteCall.createRepo "repo-two" ∉
      (ManageRepos.main cexEnv idScheme [cexR1, cexR2]).calls := by
  decide

/-- Claim C1, amended: only `requests.exceptions.RequestException`
(network/HTTP errors) is caught at per-repository granularity; for such
a failure the entry's status is left unchanged and processing continues
with the remaining entries.  (Configuration and encoding errors instead
propagate and terminate the run.) -/
theorem C1_amended_only_request_exceptions_caught (env : Env)
    (S : SealedBoxScheme) (r : RepoSpec) (rest : List RepoSpec) (code : Nat)
    (h1 : r.status = "need-to-create")
    (h2 : (tryBody env S r).2 = .error (.requestException code)) :
    processRepo env S r = ((tryBody env S r).1, .ok r) ∧
    mainLoop env S (r :: rest) =
      ((tryBody env S r).1 ++ (mainLoop env S rest).1,
        Except.map (fun l => r :: l) (mainLoop env S rest).2) := by
  have hp : processRepo env S r = ((tryBody env S r).1, .ok r) := by
    unfold processRepo
    rw [if_pos h1]
    rcases ht : tryBody env S r with ⟨tc, tr⟩
    rw [ht] at h2
    simp only at h2
    rw [h2]
  refine ⟨hp, ?_⟩
  have key : mainLoop env S (r :: rest) =
      match processRepo env S r with
      | (cs, .error e) => (cs, .error e)
      | (cs, .ok repo') =>
          match mainLoop env S rest with
          | (cs2, .error e) => (cs ++ cs2, .error e)
          | (cs2, .ok rest') => (cs ++ cs2, .ok (repo' :: rest')) := rfl
  rw [key, hp]
  rcases hm : mainLoop env S rest with ⟨cs2, res2⟩
  match res2 with
  | .error e => rfl
  | .ok rest' => rfl

/-- Witness for the amended C1: creating `fail-repo` returns HTTP 500;
its status is unchanged, and the following entry is still processed. -/
theorem C1_amended_witness :
    processRepo amEnv idScheme amR = ((tryBody amEnv idScheme amR).1, .ok amR) ∧
    mainLoop amEnv idScheme (amR :: [amRest]) =
      ((tryBody amEnv idScheme amR).1 ++ (mainLoop amEnv idScheme [amRest]).1,
        Except.map (fun l => amR :: l) (mainLoop amEnv idScheme [amRest]).2) :=
  C1_amended_only_request_exceptions_caught amEnv idScheme amR [amRest] 500
    (by decide) (by decide)

/-- Claim C2: on a completed run each entry is either unchanged or went
from `need-to-create` to `created` with a fully successful `try:` body
(so any failed call leaves it unchanged); on an aborted run nothing is
persisted at all. -/
theorem C2_status_forward (env : Env) (S : SealedBoxScheme)
    (repos : List RepoSpec) :
    (∀ cs repos', mainLoop env S repos = (cs, .ok repos') →
      List.Forall₂ (fun r r' => r' = r ∨
        (r.status = "need-to-create" ∧ (tryBody env S r).2 = .ok () ∧
          r' = { r with status := "created" })) repos repos') ∧
    (∀ cs e, mainLoop env S repos = (cs, .error e) →
      (ManageRepos.main env S repos).persisted = none) := by
  constructor
  · intro cs repos' h
    exact mainLoop_ok_forall₂ env S repos cs repos' h
  · intro cs e h
    unfold ManageRepos.main
    rw [h]

/-- Witness for C2 on the concrete all-success scenario. -/
theorem C2_status_forward_witness :
    List.Forall₂ (fun r r' => r' = r ∨
      (r.status = "need-to-create" ∧ (tryBody c3Env idScheme r).2 = .ok () ∧
        r' = { r with status := "created" })) [c3Spec] [c3After] :=
  (C2_status_forward c3Env idScheme [c3Spec]).1 c3Calls [c3After] (by decide)

/-- Claim C3: on the single-entry scenario (svc-a, alice, deploy,
need-to-create; deploy.yml contains `name: CI`; all calls succeed) the
run issues exactly: one create, one collaborator call for alice, one
file upload of the base64 of `name: CI` to
`.github/workflows/deploy.yml` on branch `main`, the public-key fetch,
and two secret-set calls; the entry is persisted with status
`created`. -/
theorem C3_full_provisioning_trace :
    ManageRepos.main c3Env idScheme [c3Spec] = ⟨c3Calls, none, some [c3After]⟩ ∧
    "bmFtZTogQ0k=" = String.mk (b64encodeBytes (utf8Encode "name: CI")) := by
  decide

/-- Claim C4: the Encryptor pads the public-key string with `=` to a
multiple of 4 before base64-decoding it (a key whose length is not a
multiple of 4 gets exactly `4 - len % 4` pad characters; a key whose
length is a multiple of 4 is left unchanged), and `encrypt` treats a key
exactly as it treats its padded form. -/
theorem C4_pad_before_decode (s : String) :
    (s.length % 4 = 0 → padB64 s = s) ∧
    (s.length % 4 ≠ 0 →
      padB64 s = s ++ String.mk (List.replicate (4 - s.length % 4) '=')) ∧
    (padB64 s).length % 4 = 0 ∧
    (∀ S sv, encrypt S s sv = encrypt S (padB64 s) sv) := by
  refine ⟨padB64_eq_self s, ?_, padB64_length_mod s,
    fun S sv => encrypt_padB64 S s sv⟩
  intro h
  apply String.ext
  rw [padB64_data]
  have hm : (4 - s.length % 4) % 4 = 4 - s.length % 4 := by omega
  rw [hm, String.data_append]

/-- Witness for C4: a 2-character key gets two pad characters; a
4-character key is decoded unchanged. -/
theorem C4_pad_before_decode_witness :
    padB64 "QQ" = "QQ" ++ String.mk (List.replicate (4 - "QQ".length % 4) '=') ∧
    padB64 "AAAA" = "AAAA" :=
  ⟨(C4_pad_before_decode "QQ").2.1 (by decide),
   (C4_pad_before_decode "AAAA").1 (by decide)⟩

/-- Claim C5: sealed-box round-trip through the Encryptor's wrapping:
whenever `encrypt` succeeds on a valid key, base64-decoding its output
yields exactly the sealed ciphertext, unsealing that with the matching
private key recovers the UTF-8 bytes of the plaintext, and those bytes
determine the plaintext string exactly. -/
theorem C5_sealed_box_roundtrip (S : SealedBoxScheme) (sk : List Nat)
    (pk : String) (pkBytes : List Nat) (sv ct : String)
    (hkey : decodeKey (padB64 pk) = .ok pkBytes)
    (hbytes : ∀ x ∈ S.boxSeal pkBytes (utf8Encode sv), x < 256)
    (hcorrect : S.boxUnseal sk (S.boxSeal pkBytes (utf8Encode sv)) =
      some (utf8Encode sv))
    (henc : encrypt S pk sv = .ok ct) :
    ∃ sealed, b64decodeChars ct.data = some sealed ∧
      S.boxUnseal sk sealed = some (utf8Encode sv) ∧
      ∀ sv' : String, utf8Encode sv' = utf8Encode sv → sv' = sv := by
  unfold encrypt at henc
  rw [hkey] at henc
  simp only at henc
  injection henc with h1
  refine ⟨S.boxSeal pkBytes (utf8Encode sv), ?_, hcorrect,
    fun sv' h => utf8Encode_injective sv' sv h⟩
  rw [← h1]
  exact b64_decode_encode _ hbytes

/-- Witness for C5 with the identity scheme, the 32-zero-byte key and
the plaintext `hi` (ciphertext `aGk=`). -/
theorem C5_sealed_box_roundtrip_witness :
    ∃ sealed, b64decodeChars ("aGk=" : String).data = some sealed ∧
      idScheme.boxUnseal [] sealed = some (utf8Encode "hi") ∧
      ∀ sv' : String, utf8Encode sv' = utf8Encode "hi" → sv' = "hi" :=
  C5_sealed_box_roundtrip idScheme [] pkString (List.replicate 32 0) "hi" "aGk="
    (by decide) (by decide) (by decide) (by decide)

/-- Claim C6: when the create call for a pending entry fails with a
non-success HTTP status, only that create call is issued for the entry
(no collaborator, pipeline or secret call), and the entry is persisted
with its status still `need-to-create`. -/
theorem C6_create_failure_stops_entry (env : Env) (S : SealedBoxScheme)
    (r : RepoSpec) (code : Nat)
    (h1 : r.status = "need-to-create")
    (h2 : env.http (RemoteCall.createRepo r.repoName) = some code) :
    processRepo env S r = ([RemoteCall.createRepo r.repoName], .ok r) ∧
    ManageRepos.main env S [r] =
      ⟨[RemoteCall.createRepo r.repoName], none, some [r]⟩ := by
  have ht : tryBody env S r =
      ([RemoteCall.createRepo r.repoName],
        .error (.requestException code)) := by
    unfold tryBody create_repo
    simp only [h2]
  have hp : processRepo env S r = ([RemoteCall.createRepo r.repoName], .ok r) := by
    unfold processRepo
    rw [if_pos h1, ht]
  refine ⟨hp, ?_⟩
  have key : mainLoop env S [r] =
      match processRepo env S r with
      | (cs, .error e) => (cs, .error e)
      | (cs, .ok repo') =>
          match mainLoop env S ([] : List RepoSpec) with
          | (cs2, .error e) => (cs ++ cs2, .error e)
          | (cs2, .ok rest') => (cs ++ cs2, .ok (repo' :: rest')) := rfl
  unfold ManageRepos.main
  rw [key, hp]
  rfl

/-- Witness for C6: creating `svc-a` returns HTTP 422. -/
theorem C6_create_failure_stops_entry_witness :
    processRepo e422Env idScheme c3Spec =
      ([RemoteCall.createRepo "svc-a"], .ok c3Spec) ∧
    ManageRepos.main e422Env idScheme [c3Spec] =
      ⟨[RemoteCall.createRepo "svc-a"], none, some [c3Spec]⟩ :=
  C6_create_failure_stops_entry e422Env idScheme c3Spec 422 (by decide)
    (by decide)

/-- Claim C7: an entry whose status is `created` triggers no remote call
at all and is passed through unchanged. -/
theorem C7_created_entries_skipped (env : Env) (S : SealedBoxScheme)
    (r : RepoSpec) (h : r.status = "created") :
    processRepo env S r = ([], .ok r) :=
  processRepo_skip env S r (by rw [h]; decide)

/-- Witness for C7 on a concrete created entry. -/
theorem C7_created_entries_skipped_witness :
    processRepo c3Env idScheme createdSpec = ([], .ok createdSpec) :=
  C7_created_entries_skipped c3Env idScheme createdSpec (by decide)

/-- Claim C8: `create_pipeline` fails with `ValueError` and makes no
upload call when the pipeline type is absent, and fails with
`FileNotFoundError` and makes no upload call when the local template
file `<identifier>.yml` does not exist. -/
theorem C8_pipeline_failures (env : Env) (n pt : String) :
    create_pipeline env n none =
      ([], .error (.valueError "Pipeline type is not defined.")) ∧
    (env.fs (pt ++ ".yml") = none →
      create_pipeline env n (some pt) =
        ([], .error (.fileNotFound
          ("The file for pipeline type " ++ pt ++ " does not exist.")))) := by
  constructor
  · rfl
  · intro h
    unfold create_pipeline read_pipeline_file
    simp only [h]

/-- Witness for C8 in the environment with no local files. -/
theorem C8_pipeline_failures_witness :
    create_pipeline cexEnv "repo-one" none =
      ([], .error (.valueError "Pipeline type is not defined.")) ∧
    create_pipeline cexEnv "repo-one" (some "deploy") =
      ([], .error (.fileNotFound
        ("The file for pipeline type " ++ "deploy" ++ " does not exist."))) :=
  ⟨(C8_pipeline_failures cexEnv "repo-one" "deploy").1,
   (C8_pipeline_failures cexEnv "repo-one" "deploy").2 (by decide)⟩

/-- Claim C9: on a completed run the full processed list (same length as
the input, unmodified entries included) overwrites the store; when no
entry is pending, the persisted content equals the input exactly and no
remote call is made. -/
theorem C9_full_list_written_back (env : Env) (S : SealedBoxScheme)
    (repos : List RepoSpec) :
    (∀ cs repos', mainLoop env S repos = (cs, .ok repos') →
      ManageRepos.main env S repos = ⟨cs, none, some repos'⟩ ∧
      repos'.length = repos.length) ∧
    ((∀ r ∈ repos, r.status ≠ "need-to-create") →
      ManageRepos.main env S repos = ⟨[], none, some repos⟩) := by
  constructor
  · intro cs repos' h
    constructor
    · unfold ManageRepos.main
      rw [h]
    · exact (mainLoop_ok_forall₂ env S repos cs repos' h).length_eq.symm
  · intro h
    unfold ManageRepos.main
    rw [mainLoop_all_skip env S repos h]

/-- Witness for C9: a list whose single entry is already created is
persisted unchanged with no remote call. -/
theorem C9_full_list_written_back_witness :
    ManageRepos.main c3Env idScheme [createdSpec] =
      ⟨[], none, some [createdSpec]⟩ :=
  (C9_full_list_written_back c3Env idScheme [createdSpec]).2 (by decide)

/-- Claim C10: when the loop aborts with an uncaught exception (which is
never a `RequestException`: those are caught), `repos.json` is not
rewritten, so in-memory status updates of earlier entries are lost. -/
theorem C10_uncaught_exception_aborts_write (env : Env) (S : SealedBoxScheme)
    (repos : List RepoSpec) (cs : List RemoteCall) (e : PyExn)
    (h : mainLoop env S repos = (cs, .error e)) :
    ManageRepos.main env S repos = ⟨cs, some e, none⟩ ∧
    ∀ code, e ≠ .requestException code := by
  constructor
  · unfold ManageRepos.main
    rw [h]
  · exact mainLoop_error_not_request env S repos cs e h

/-- Witness for C10: entry `good` is fully provisioned in memory, then
entry `bad` hits `FileNotFoundError`; the run dies and nothing is
persisted. -/
theorem C10_uncaught_exception_aborts_write_witness :
    ManageRepos.main c10Env idScheme [c10good, c10bad] =
      ⟨[RemoteCall.createRepo "good",
        RemoteCall.uploadFile "good" ".github/workflows/build.yml" "eDogMQ=="
          "Add build pipeline" "main",
        RemoteCall.getPublicKey "good",
        RemoteCall.putSecret "good" "SECRET_KEY"
          "ZXhhbXBsZV9zZWNyZXRfdmFsdWU=" "kid",
        RemoteCall.putSecret "good" "GH_TOKEN" "dG9r" "kid",
        RemoteCall.createRepo "bad"],
       some (.fileNotFound "The file for pipeline type missing does not exist."),
       none⟩ ∧
    ∀ code, (PyExn.fileNotFound
        "The file for pipeline type missing does not exist.") ≠
      .requestException code :=
  C10_uncaught_exception_aborts_write c10Env idScheme [c10good, c10bad]
    [RemoteCall.createRepo "good",
     RemoteCall.uploadFile "good" ".github/workflows/build.yml" "eDogMQ=="
       "Add build pipeline" "main",
     RemoteCall.getPublicKey "good",
     RemoteCall.putSecret "good" "SECRET_KEY"
       "ZXhhbXBsZV9zZWNyZXRfdmFsdWU=" "kid",
     RemoteCall.putSecret "good" "GH_TOKEN" "dG9r" "kid",
     RemoteCall.createRepo "bad"]
    (.fileNotFound "The file for pipeline type missing does not exist.")
    (by decide)
